import Mathlib

/-!
Verification development for the biodiversity tool router and map explorer.

The Python code is shallowly embedded: Python values that flow through the
router and the validators are modelled by the inductive type `PVal`
(floats are abstracted to rationals plus a NaN marker; float-to-string
formatting is abstracted, preserving only that such strings never match the
hexadecimal H3 pattern), dictionaries by association lists with
insertion-order update, raised `ValueError`s by `Except String`, and the
external H3 library and SHA-256 by explicit function parameters.
-/

namespace BioAgent

/-- Python float: either NaN or a finite value, abstracted to a rational. -/
inductive PFloat
  | nan
  | finite (q : ℚ)
deriving DecidableEq

/-- Python runtime values as they appear in router parameters and rows. -/
inductive PVal
  | none
  | pybool (b : Bool)
  | pyint (n : ℤ)
  | pyfloat (f : PFloat)
  | pystr (s : String)
  | pylist (xs : List PVal)
  | other (s : String)

/-- Python truthiness (`bool(v)`). NaN is truthy; empty string/list, 0 and None are falsy. -/
def pyTruthy : PVal → Bool
  | .none => false
  | .pybool b => b
  | .pyint n => n ≠ 0
  | .pyfloat .nan => true
  | .pyfloat (.finite q) => q ≠ 0
  | .pystr s => s ≠ ""
  | .pylist xs => !xs.isEmpty
  | .other _ => true

/-- Whether a value is the Python `None` (the `is None` test). -/
def PVal.isNone : PVal → Bool
  | .none => true
  | _ => false

/-- Python `a or b`. -/
def pyOr (a b : PVal) : PVal := if pyTruthy a then a else b

mutual

/-- Python `str(v)`. Float formatting is abstracted: an integral float prints
with a trailing `.0` as in Python, a non-integral one prints as a fraction;
either way the result never matches the hexadecimal H3 pattern, which is the
only property the embedded code depends on. -/
def pyStr : PVal → String
  | .none => "None"
  | .pybool true => "True"
  | .pybool false => "False"
  | .pyint n => toString n
  | .pyfloat .nan => "nan"
  | .pyfloat (.finite q) => if q.den = 1 then toString q.num ++ ".0" else toString q
  | .pystr s => s
  | .pylist xs => "[" ++ pyReprList xs ++ "]"
  | .other s => s
termination_by structural v => v

/-- Comma-separated reprs of the elements of a Python list; strings are
quoted as by Python `repr`. -/
def pyReprList : List PVal → String
  | [] => ""
  | [.pystr s] => "\x27" ++ s ++ "\x27"
  | [x] => pyStr x
  | .pystr s :: y :: xs => "\x27" ++ s ++ "\x27" ++ ", " ++ pyReprList (y :: xs)
  | x :: y :: xs => pyStr x ++ ", " ++ pyReprList (y :: xs)
termination_by structural v => v

end

/-- Python `s.strip()`: drop leading and trailing whitespace. -/
def pyStrip (s : String) : String :=
  String.mk (((s.toList.dropWhile Char.isWhitespace).reverse.dropWhile
    Char.isWhitespace).reverse)

/-- A Python dict with string keys, as an association list; an update keeps
the position of an existing key, as Python dicts do. -/
abbrev PDict := List (String × PVal)

/-- Update or append a key, preserving first-insertion position. -/
def dictSet : PDict → String → PVal → PDict
  | [], k, v => [(k, v)]
  | (k0, v0) :: rest, k, v =>
      if k0 = k then (k0, v) :: rest else (k0, v0) :: dictSet rest k v

/-- Python `d.get(k)`: None when the key is absent (absent and None-valued
keys are conflated, as the embedded code never distinguishes them). -/
def dictGet (d : PDict) (k : String) : PVal :=
  match d.lookup k with
  | Option.some v => v
  | Option.none => PVal.none

/-- Digits of a decimal integer literal, or none. -/
def digitsToNat : List Char → Option ℕ
  | [] => Option.none
  | cs =>
      if cs.all Char.isDigit then
        Option.some (cs.foldl (fun a c => a * 10 + (c.toNat - 48)) 0)
      else Option.none

/-- Python `int(s)` on a string: optional sign and decimal digits, with
surrounding whitespace allowed. -/
def pyParseInt (s : String) : Option ℤ :=
  match (pyStrip s).toList with
  | '+' :: cs => (digitsToNat cs).map Int.ofNat
  | '-' :: cs => (digitsToNat cs).map (fun n => -(n : ℤ))
  | cs => (digitsToNat cs).map Int.ofNat

/-- Truncation of a rational toward zero, as Python `int(float)`. -/
def ratTrunc (q : ℚ) : ℤ := if 0 ≤ q then ⌊q⌋ else -⌊-q⌋

/-- Python `int(v)`: none models a raised TypeError/ValueError. -/
def pyToInt : PVal → Option ℤ
  | .pyint n => Option.some n
  | .pybool b => Option.some (if b then 1 else 0)
  | .pyfloat (.finite q) => Option.some (ratTrunc q)
  | .pystr s => pyParseInt s
  | _ => Option.none

/-- Result of a validator: a raised ValueError carries its message. -/
abbrev VRes (α : Type) := Except String α

deriving instance DecidableEq for Except

/-- Hexadecimal character test for the H3 id pattern. -/
def isHexChar (c : Char) : Bool :=
  c.isDigit || ('a' ≤ c && c ≤ 'f') || ('A' ≤ c && c ≤ 'F')

/-- The regex `^[0-9a-fA-F]{8,15}$` from `validate_h3_id`. -/
def hexShape (s : String) : Bool :=
  decide (8 ≤ s.length) && decide (s.length ≤ 15) && s.toList.all isHexChar

/-- Embeds `validation.validate_h3_id`; `h3res` models `h3.get_resolution`
of the external H3 library (none models a raised exception). -/
def validate_h3_id (h3res : String → Option ℤ) (v : PVal) : VRes String :=
  match v with
  | .pystr s =>
      if s = "" then .error "h3_id must be a non-empty string"
      else
        let t := pyStrip s
        if hexShape t then
          match h3res t with
          | Option.some _ => .ok t
          | Option.none => .error ("Invalid H3 ID format: " ++ t)
        else .error ("Invalid H3 ID format: " ++ t)
  | _ => .error "h3_id must be a non-empty string"

/-- Embeds `validation.validate_h3_resolution` (default 7, range 6..9). -/
def validate_h3_resolution (res : PVal) : VRes ℤ :=
  match (match res with | .none => Option.some 7 | v => pyToInt v) with
  | Option.none => .error "h3_res must be an integer"
  | Option.some r =>
      if 6 ≤ r ∧ r ≤ 9 then .ok r else .error "h3_res must be between 6 and 9"

/-- Embeds `validation.validate_k_ring` (default 1, range 1..3). -/
def validate_k_ring (k : PVal) : VRes ℤ :=
  match (match k with | .none => Option.some 1 | v => pyToInt v) with
  | Option.none => .error "k_ring must be an integer"
  | Option.some kv =>
      if 1 ≤ kv ∧ kv ≤ 3 then .ok kv else .error "k_ring must be between 1 and 3"

/-- Embeds `validation.validate_year` (absent is a valid unset sentinel). -/
def validate_year (year : PVal) : VRes (Option ℤ) :=
  match year with
  | .none => .ok Option.none
  | v =>
      match pyToInt v with
      | Option.none => .error "year must be an integer"
      | Option.some y =>
          if 2000 ≤ y ∧ y ≤ 2100 then .ok (Option.some y)
          else .error "year must be between 2000 and 2100"

/-- Embeds `validation.validate_last_n_months` (range 1..60). -/
def validate_last_n_months (n : PVal) : VRes (Option ℤ) :=
  match n with
  | .none => .ok Option.none
  | v =>
      match pyToInt v with
      | Option.none => .error "last_n_months must be an integer"
      | Option.some m =>
          if 1 ≤ m ∧ m ≤ 60 then .ok (Option.some m)
          else .error "last_n_months must be between 1 and 60"

/-- One loop step of `validate_h3_id_list`: keep a trimmed entry when it is
non-blank and validates, else drop it silently. -/
def h3ListStep (h3res : String → Option ℤ) (acc : List String) (h : PVal) : List String :=
  let s := pyStrip (pyStr h)
  if s = "" then acc
  else
    match validate_h3_id h3res (.pystr s) with
    | .ok _ => acc ++ [s]
    | .error _ => acc

/-- Embeds `validation.validate_h3_id_list`: coerce a string to a singleton
list, silently drop malformed entries, cap the kept entries at 100. -/
def validate_h3_id_list (h3res : String → Option ℤ) (v : PVal) : VRes (List String) :=
  match v with
  | .none => .ok []
  | .pystr s =>
      let out := List.foldl (h3ListStep h3res) [] [PVal.pystr s]
      if out.length > 100 then .error "Maximum 100 H3 cells per request" else .ok out
  | .pylist xs =>
      let out := List.foldl (h3ListStep h3res) [] xs
      if out.length > 100 then .error "Maximum 100 H3 cells per request" else .ok out
  | _ => .error "h3_ids must be a list or string"

/-- JSON values as produced by the handlers before serialization. -/
inductive JVal
  | jnull
  | jbool (b : Bool)
  | jint (n : ℤ)
  | jnum (q : ℚ)
  | jstr (s : String)
  | jarr (xs : List JVal)
  | jobj (kvs : List (String × JVal))

/-- Lookup of a key in a JSON object; none elsewhere. -/
def jGet : JVal → String → Option JVal
  | .jobj kvs, k => kvs.lookup k
  | _, _ => Option.none

/-- Embeds `_to_json_val` from `get_hex_metrics.py` and
`get_neighbor_summary.py`: null for None and NaN; booleans, integers,
strings and finite floats verbatim; `str(v)` for anything else. -/
def to_json_val : PVal → JVal
  | .none => .jnull
  | .pyfloat .nan => .jnull
  | .pybool b => .jbool b
  | .pyint n => .jint n
  | .pystr s => .jstr s
  | .pyfloat (.finite q) => .jnum q
  | .pylist xs => .jstr (pyStr (.pylist xs))
  | .other s => .jstr (pyStr (.other s))

/-- Embeds the inline conversion loop of `get_osm_context.handler`, whose
branch order differs from `_to_json_val`. -/
def osm_json_val (v : PVal) : JVal :=
  match v with
  | .none => .jnull
  | .pyint n => .jint n
  | .pystr s => .jstr s
  | .pybool b => .jbool b
  | .pyfloat f =>
      match f with
      | .nan => .jnull
      | .finite q => .jnum q
  | w => .jstr (pyStr w)

/-- Python `round` to an integer: nearest, ties to even. -/
def pyRoundInt (q : ℚ) : ℤ :=
  let f := ⌊q⌋
  if q - f < 1 / 2 then f
  else if q - f > 1 / 2 then f + 1
  else if 2 ∣ f then f else f + 1

/-- Python `round(q, nd)` on the rational abstraction of floats. -/
def pyRound (q : ℚ) (nd : ℕ) : ℚ := (pyRoundInt (q * (10 : ℚ) ^ nd) : ℚ) / (10 : ℚ) ^ nd

/-- A row of the `gbif_cell_metrics` table, restricted to the columns the
embedded handlers read; numeric columns are nullable and the float-valued
ones may hold NaN. -/
structure MetricsRow where
  h3_index : String
  h3_resolution : ℤ
  year : ℤ
  species_richness_cell : Option ℤ
  n_threatened_species : Option ℤ
  dqi : Option PFloat
  threat_score_weighted : Option PFloat
deriving DecidableEq

/-- Ordering key for `ORDER BY year` (ascending). -/
def yearLe (a b : MetricsRow) : Prop := a.year ≤ b.year

instance : DecidableRel yearLe := fun a b => (inferInstance : Decidable (a.year ≤ b.year))

instance : IsTotal MetricsRow yearLe := ⟨fun a b => le_total a.year b.year⟩

instance : IsTrans MetricsRow yearLe := ⟨fun _ _ _ h h2 => le_trans h h2⟩

/-- Total order on SQL float values with NaN greatest, as in PostgreSQL. -/
def pgFloatLe (a b : PFloat) : Bool :=
  match a, b with
  | .nan, .nan => true
  | .finite _, .nan => true
  | .nan, .finite _ => false
  | .finite x, .finite y => decide (x ≤ y)

/-- Row order for `ORDER BY threat_score_weighted DESC NULLS LAST`: row `a`
may precede row `b`. -/
def threatDescNullsLast (a b : Option PFloat) : Bool :=
  match a, b with
  | Option.none, Option.none => true
  | Option.none, Option.some _ => false
  | Option.some _, Option.none => true
  | Option.some x, Option.some y => pgFloatLe y x

/-- The same order on whole rows, as a relation. -/
def threatOrder (a b : MetricsRow) : Prop :=
  threatDescNullsLast a.threat_score_weighted b.threat_score_weighted = true

instance : DecidableRel threatOrder :=
  fun a b => (inferInstance : Decidable (_ = true))

theorem pgFloatLe_total (a b : PFloat) : pgFloatLe a b || pgFloatLe b a := by
  cases a <;> cases b <;> simp [pgFloatLe] <;> exact le_total _ _

theorem pgFloatLe_trans {a b c : PFloat} (h1 : pgFloatLe a b) (h2 : pgFloatLe b c) :
    pgFloatLe a c := by
  cases a <;> cases b <;> cases c <;> simp_all [pgFloatLe] <;> exact le_trans h1 h2

theorem threatDescNullsLast_total (a b : Option PFloat) :
    threatDescNullsLast a b || threatDescNullsLast b a := by
  match a, b with
  | Option.none, Option.none => rfl
  | Option.none, Option.some _ => rfl
  | Option.some _, Option.none => rfl
  | Option.some x, Option.some y =>
      simpa [threatDescNullsLast] using pgFloatLe_total y x

theorem threatDescNullsLast_trans {a b c : Option PFloat}
    (h1 : threatDescNullsLast a b) (h2 : threatDescNullsLast b c) :
    threatDescNullsLast a c := by
  cases a <;> cases b <;> cases c <;> simp_all [threatDescNullsLast]
  exact pgFloatLe_trans h2 h1

instance : IsTotal MetricsRow threatOrder :=
  ⟨fun a b => by
    have := threatDescNullsLast_total a.threat_score_weighted b.threat_score_weighted
    simp [threatOrder]
    revert this
    cases threatDescNullsLast a.threat_score_weighted b.threat_score_weighted <;> simp⟩

instance : IsTrans MetricsRow threatOrder :=
  ⟨fun _ _ _ h h2 => threatDescNullsLast_trans h h2⟩

/-- Embeds `_get_year_filter` from `get_hex_metrics.py`. The current year of
the two clock calls is a parameter. -/
def _get_year_filter (todayYear : ℤ) (p : PDict) : Option ℤ × Option ℤ :=
  let start := pyOr (dictGet p "time_start") (dictGet p "start_year")
  let stop := pyOr (dictGet p "time_end") (dictGet p "end_year")
  let last_n := dictGet p "last_n_months"
  let fromRange : Option ℤ × Option ℤ :=
    if start.isNone = false ∨ stop.isNone = false then
      match (if pyTruthy start then pyToInt start else Option.some 2000),
            (if pyTruthy stop then pyToInt stop else Option.some todayYear) with
      | Option.some s, Option.some e => (Option.some s, Option.some e)
      | _, _ => (Option.none, Option.none)
    else (Option.none, Option.none)
  if last_n.isNone = false then
    match pyToInt last_n with
    | Option.some n =>
        if n ≤ 0 then (Option.none, Option.none)
        else (Option.some (max 2000 (todayYear - n / 12 - 1)), Option.some todayYear)
    | Option.none => fromRange
  else fromRange

/-- Year filter of the metrics query: `year BETWEEN s AND e` is attached only
when both bounds are set. -/
def yearInRange (ys ye : Option ℤ) (y : ℤ) : Bool :=
  match ys, ye with
  | Option.some a, Option.some b => decide (a ≤ y) && decide (y ≤ b)
  | _, _ => true

/-- Value used by the trend computation for a nullable integer column:
the JSON conversion sends NULL to null and `or 0` then yields 0. -/
def intTerm (v : Option ℤ) : ℤ := v.getD 0

/-- Value used by the trend computation for the `dqi` column: NULL and NaN
both become null in the JSON row and `or 0` then yields 0. -/
def dqiTerm (v : Option PFloat) : ℚ :=
  match v with
  | Option.some (.finite q) => q
  | _ => 0

/-- The trend block of the single-cell metrics response. -/
structure TrendBlock where
  species_richness_change : ℤ
  threatened_change : ℤ
  dqi_change : ℚ
deriving DecidableEq

/-- Typed form of the `GetHexMetrics` response body. -/
structure HexMetricsResult where
  h3_id : String
  h3_resolution : ℤ
  metrics : List MetricsRow
  trend : Option TrendBlock
deriving DecidableEq

/-- Rows returned by the metrics query: filter on (cell, resolution) and the
optional year window, ordered by year. -/
def hexMetricsRows (table : List MetricsRow) (h3_id : String) (h3_res : ℤ)
    (ys ye : Option ℤ) : List MetricsRow :=
  List.insertionSort yearLe
    (table.filter (fun r =>
      r.h3_index = h3_id && r.h3_resolution = h3_res && yearInRange ys ye r.year))

/-- The trend block computed over the ordered rows: last row minus first row
on the JSON-converted values, with the data-quality delta rounded. -/
def trendOf (rows : List MetricsRow) : Option TrendBlock :=
  if 2 ≤ rows.length then
    match rows.head?, rows.getLast? with
    | Option.some first, Option.some last =>
        Option.some
          { species_richness_change :=
              intTerm last.species_richness_cell - intTerm first.species_richness_cell
            threatened_change :=
              intTerm last.n_threatened_species - intTerm first.n_threatened_species
            dqi_change := pyRound (dqiTerm last.dqi - dqiTerm first.dqi) 4 }
    | _, _ => Option.none
  else Option.none

/-- Embeds `get_hex_metrics.handler`. The database is the `table` argument. -/
def get_hex_metrics (h3res : String → Option ℤ) (todayYear : ℤ)
    (table : List MetricsRow) (p : PDict) : VRes HexMetricsResult :=
  match validate_h3_id h3res
    (pyOr (pyOr (dictGet p "h3_id") (dictGet p "h3Id")) (.pystr "")) with
  | .error m => .error m
  | .ok h3_id =>
      match validate_h3_resolution (pyOr (dictGet p "h3_res") (dictGet p "h3Res")) with
      | .error m => .error m
      | .ok h3_res =>
          let yf := _get_year_filter todayYear p
          let rows := hexMetricsRows table h3_id h3_res yf.1 yf.2
          .ok { h3_id := h3_id, h3_resolution := h3_res, metrics := rows,
                trend := trendOf rows }

/-- The external H3 library surface used by the embedded code; a none result
models a raised exception. -/
structure H3Lib where
  getResolution : String → Option ℤ
  cellToParent : String → ℤ → Option String
  gridDisk : String → ℤ → List String

/-- The payload string hashed into `neighbor_set_id`. -/
def neighborPayload (c : String) (res k : ℤ) : String :=
  c ++ ":" ++ toString res ++ ":" ++ toString k

/-- Typed form of the `GetNeighborHexes` response body. -/
structure NeighborHexesResult where
  h3_id : String
  h3_resolution : ℤ
  k_ring : ℤ
  neighbor_count : ℤ
  neighbor_h3_ids : List String
  neighbor_set_id : String
deriving DecidableEq

/-- The silent resolution correction of `get_neighbor_hexes.handler`: when
the actual resolution of the cell differs from the requested one, replace
the cell by its parent at the requested resolution; any exception from the
library leaves the cell unchanged. -/
def derivedCell (lib : H3Lib) (h3_id0 : String) (h3_res : ℤ) : String :=
  match lib.getResolution h3_id0 with
  | Option.none => h3_id0
  | Option.some ra =>
      if ra ≠ h3_res then (lib.cellToParent h3_id0 h3_res).getD h3_id0 else h3_id0

/-- The neighbor list: the k-ring with the center removed, de-duplicated and
sorted. -/
def neighborList (lib : H3Lib) (h3_id : String) (k : ℤ) : List String :=
  List.insertionSort (· ≤ ·) ((lib.gridDisk h3_id k).dedup.filter (fun s => s ≠ h3_id))

/-- Embeds `get_neighbor_hexes.handler`; `sha16` models the first 16 hex
characters of the SHA-256 digest. -/
def get_neighbor_hexes (lib : H3Lib) (sha16 : String → String)
    (p : PDict) : VRes NeighborHexesResult :=
  match validate_h3_id lib.getResolution
    (pyOr (pyOr (dictGet p "h3_id") (dictGet p "h3Id")) (.pystr "")) with
  | .error m => .error m
  | .ok h3_id0 =>
      match validate_h3_resolution (pyOr (dictGet p "h3_res") (dictGet p "h3Res")) with
      | .error m => .error m
      | .ok h3_res =>
          match validate_k_ring (pyOr (dictGet p "k_ring") (dictGet p "kRing")) with
          | .error m => .error m
          | .ok k =>
              let h3_id := derivedCell lib h3_id0 h3_res
              let neighbors := neighborList lib h3_id k
              .ok { h3_id := h3_id, h3_resolution := h3_res, k_ring := k,
                    neighbor_count := neighbors.length, neighbor_h3_ids := neighbors,
                    neighbor_set_id := sha16 (neighborPayload h3_id h3_res k) }

/-- One entry of the `parameters` list of an invocation; the value field is
none when the `value` key is absent. -/
structure Param where
  name : String
  value : Option PVal

/-- The `properties` field found under `requestBody.content.application/json`:
either a list of name/value entries, a plain mapping, or something else
(which every parser ignores). -/
inductive Props
  | plist (xs : List Param)
  | pdict (xs : List (String × PVal))
  | pother

/-- Embeds `_params_to_dict` of `lambda_handler.py` and the identical
`_parse_params` of `get_hex_metrics.py` and `get_neighbor_summary.py`:
parameters first, then body properties (list entries falling back to the
existing value when `value` is absent, a mapping merged directly). -/
def params_to_dict (params : List Param) (body : Option Props) : PDict :=
  let p := params.foldl
    (fun acc x => if x.name ≠ "" then dictSet acc x.name (x.value.getD .none) else acc) []
  match body with
  | Option.none => p
  | Option.some (.plist xs) =>
      xs.foldl
        (fun acc x =>
          if x.name ≠ "" then dictSet acc x.name (x.value.getD (dictGet acc x.name)) else acc) p
  | Option.some (.pdict xs) => xs.foldl (fun acc kv => dictSet acc kv.1 kv.2) p
  | Option.some .pother => p

/-- Embeds `_parse_params` of `get_neighbor_hexes.py` and
`get_osm_context.py`, which handle only list-shaped body properties. -/
def parse_params_list_only (params : List Param) (body : Option Props) : PDict :=
  let p := params.foldl
    (fun acc x => if x.name ≠ "" then dictSet acc x.name (x.value.getD .none) else acc) []
  match body with
  | Option.some (.plist xs) =>
      xs.foldl
        (fun acc x =>
          if x.name ≠ "" then dictSet acc x.name (x.value.getD (dictGet acc x.name)) else acc) p
  | _ => p

/-- Embeds `_parse_params` of `get_neighbor_summary.py`: after the common
dict build, a string-valued cell list is decoded with `json.loads`
(modelled by the `jsonLoads` parameter, none meaning a decode error) or,
failing that, split on commas. -/
def parse_params_summary (jsonLoads : String → Option PVal)
    (params : List Param) (body : Option Props) : PDict :=
  let p := params_to_dict params body
  match pyOr (dictGet p "h3_ids") (dictGet p "h3Ids") with
  | .pystr s =>
      match jsonLoads s with
      | Option.some v => dictSet p "h3_ids" v
      | Option.none =>
          dictSet p "h3_ids"
            (.pylist ((((s.splitOn ",").map pyStrip).filter (fun x => x ≠ "")).map .pystr))
  | _ => p

/-- Mean as computed by `sum(v) / len(v)` under true division. -/
def meanQ (v : List ℚ) : ℚ := v.sum / v.length

/-- Median as computed by `get_neighbor_summary.handler`: sort, then middle
element, or the average of the two middle elements for even length. -/
def medianQ (v : List ℚ) : ℚ :=
  let s := List.insertionSort (· ≤ ·) v
  let mid := s.length / 2
  if s.length % 2 = 0 then (s.getD mid 0 + s.getD (mid - 1) 0) / 2 else s.getD mid 0

/-- The aggregate block of the `GetNeighborSummary` response. -/
structure SummaryStats where
  mean_richness : Option ℚ
  median_richness : Option ℚ
  total_threatened : ℤ
  mean_dqi : Option ℚ
  mean_threat_score : Option ℚ
  cell_count : ℤ
deriving DecidableEq

/-- Typed form of the `GetNeighborSummary` response body; an outer none in
`year`, `top_risky_neighbors` or `message` means the key is absent. -/
structure SummaryResult where
  h3_ids : List String
  h3_resolution : ℤ
  year : Option (Option ℤ)
  summary : Option SummaryStats
  top_risky_neighbors : Option (List MetricsRow)
  message : Option String
deriving DecidableEq

/-- Extraction of a finite float column value as the JSON-converted row
exposes it: NULL and NaN are dropped by the `is not None` filters. -/
def finiteVal : Option PFloat → Option ℚ
  | Option.some (.finite q) => Option.some q
  | _ => Option.none

/-- Membership filter of both summary queries: cell in the id list at the
requested resolution. -/
def summaryInSet (h3_ids : List String) (h3_res : ℤ) (r : MetricsRow) : Bool :=
  h3_ids.contains r.h3_index && r.h3_resolution = h3_res

/-- The year used by the main summary query: the explicit year when given,
else the truthy `MAX(year)` of the matching rows, else unset. -/
def summaryYear (table : List MetricsRow) (h3_ids : List String) (h3_res : ℤ)
    (year0 : Option ℤ) : Option ℤ :=
  match year0 with
  | Option.some y => Option.some y
  | Option.none =>
      match ((table.filter (summaryInSet h3_ids h3_res)).map (fun r => r.year)).max? with
      | Option.some m => if m ≠ 0 then Option.some m else Option.none
      | Option.none => Option.none

/-- The row set of the main summary query, before ordering. -/
def summaryRows (table : List MetricsRow) (h3_ids : List String) (h3_res : ℤ)
    (year : Option ℤ) : List MetricsRow :=
  table.filter (fun r => summaryInSet h3_ids h3_res r &&
    (match year with | Option.some y => decide (r.year = y) | Option.none => true))

/-- The aggregate block computed over the ordered cells. -/
def summaryStatsOf (cells : List MetricsRow) : SummaryStats :=
  let richness := cells.filterMap (fun r => r.species_richness_cell)
  let threatened := cells.filterMap (fun r => r.n_threatened_species)
  let dqi_vals := cells.filterMap (fun r => finiteVal r.dqi)
  let threat_vals := cells.filterMap (fun r => finiteVal r.threat_score_weighted)
  let richQ := richness.map (fun n => (n : ℚ))
  { mean_richness :=
      if richness.isEmpty then Option.none else Option.some (pyRound (meanQ richQ) 2)
    median_richness :=
      if richness.isEmpty then Option.none else Option.some (pyRound (medianQ richQ) 2)
    total_threatened := if threatened.isEmpty then 0 else threatened.sum
    mean_dqi :=
      if dqi_vals.isEmpty then Option.none else Option.some (pyRound (meanQ dqi_vals) 4)
    mean_threat_score :=
      if threat_vals.isEmpty then Option.none
      else Option.some (pyRound (meanQ threat_vals) 2)
    cell_count := cells.length }

/-- Embeds `get_neighbor_summary.handler`. The `MAX(year)` probe and the
main query both run against the `table` argument; the main query orders by
weighted threat score descending with nulls last. -/
def get_neighbor_summary (h3res : String → Option ℤ) (jsonLoads : String → Option PVal)
    (table : List MetricsRow) (params : List Param) (body : Option Props) :
    VRes SummaryResult :=
  match validate_h3_id_list h3res
    (pyOr (dictGet (parse_params_summary jsonLoads params body) "h3_ids")
          (dictGet (parse_params_summary jsonLoads params body) "h3Ids")) with
  | .error m => .error m
  | .ok h3_ids =>
      match validate_h3_resolution
        (pyOr (dictGet (parse_params_summary jsonLoads params body) "h3_res")
              (dictGet (parse_params_summary jsonLoads params body) "h3Res")) with
      | .error m => .error m
      | .ok h3_res =>
          match validate_year (dictGet (parse_params_summary jsonLoads params body) "year") with
          | .error m => .error m
          | .ok year0 =>
              if h3_ids = [] then
                .ok { h3_ids := [], h3_resolution := h3_res, year := Option.none,
                      summary := Option.none, top_risky_neighbors := Option.none,
                      message := Option.some "No valid H3 IDs provided" }
              else
                let year := summaryYear table h3_ids h3_res year0
                let cells := List.insertionSort threatOrder
                  (summaryRows table h3_ids h3_res year)
                if cells = [] then
                  .ok { h3_ids := h3_ids, h3_resolution := h3_res,
                        year := Option.some year, summary := Option.none,
                        top_risky_neighbors := Option.some [],
                        message := Option.some "No metrics found for given H3 cells" }
                else
                  .ok { h3_ids := h3_ids, h3_resolution := h3_res,
                        year := Option.some year,
                        summary := Option.some (summaryStatsOf cells),
                        top_risky_neighbors := Option.some cells,
                        message := Option.none }

/-- JSON form of a nullable integer column. -/
def jOfOptInt : Option ℤ → JVal
  | Option.some n => .jint n
  | Option.none => .jnull

/-- JSON form of a nullable rational. -/
def jOfOptNum : Option ℚ → JVal
  | Option.some q => .jnum q
  | Option.none => .jnull

/-- JSON form of a nullable float column after `_to_json_val`. -/
def jOfOptFloat : Option PFloat → JVal
  | Option.some f => to_json_val (.pyfloat f)
  | Option.none => .jnull

/-- JSON object built from a metrics row by the per-cell conversion loop. -/
def metricsRowJson (r : MetricsRow) : JVal :=
  .jobj
    [("h3_index", .jstr r.h3_index),
     ("h3_resolution", .jint r.h3_resolution),
     ("year", .jint r.year),
     ("species_richness_cell", jOfOptInt r.species_richness_cell),
     ("n_threatened_species", jOfOptInt r.n_threatened_species),
     ("dqi", jOfOptFloat r.dqi),
     ("threat_score_weighted", jOfOptFloat r.threat_score_weighted)]

/-- JSON object of the aggregate block. -/
def summaryStatsJson (s : SummaryStats) : JVal :=
  .jobj
    [("mean_richness", jOfOptNum s.mean_richness),
     ("median_richness", jOfOptNum s.median_richness),
     ("total_threatened", .jint s.total_threatened),
     ("mean_dqi", jOfOptNum s.mean_dqi),
     ("mean_threat_score", jOfOptNum s.mean_threat_score),
     ("cell_count", .jint s.cell_count)]

/-- JSON body of a `GetNeighborSummary` response, with exactly the keys the
handler emits on each path. -/
def summaryResultJson (r : SummaryResult) : JVal :=
  .jobj
    ([("h3_ids", .jarr (r.h3_ids.map .jstr)), ("h3_resolution", .jint r.h3_resolution)]
     ++ (match r.year with
         | Option.some y => [("year", jOfOptInt y)]
         | Option.none => [])
     ++ [("summary",
          match r.summary with
          | Option.some s => summaryStatsJson s
          | Option.none => .jnull)]
     ++ (match r.top_risky_neighbors with
         | Option.some cs => [("top_risky_neighbors", .jarr (cs.map metricsRowJson))]
         | Option.none => [])
     ++ (match r.message with
         | Option.some m => [("message", .jstr m)]
         | Option.none => []))

/-- An exception escaping a tool handler: a `ValueError` or anything else. -/
inductive PyErr
  | valueError (msg : String)
  | exn (msg : String)

/-- A tool handler as the router sees it: parameters and optional request
body in, JSON-serializable body out, or a raised exception. -/
abbrev HandlerFn := List Param → Option Props → Except PyErr JVal

/-- The seven imported tool handlers of `lambda_handler.py`. -/
structure Handlers where
  get_hex_metrics : HandlerFn
  get_neighbor_hexes : HandlerFn
  get_neighbor_summary : HandlerFn
  get_hex_species_context : HandlerFn
  get_osm_context : HandlerFn
  get_info_about_threatened_species : HandlerFn
  get_species_profiles : HandlerFn

/-- The static `TOOL_HANDLERS` mapping, with every canonical name, its
lower-camel variant and its slash-prefixed path variant. -/
def TOOL_HANDLERS (h : Handlers) : List (String × HandlerFn) :=
  [("GetHexMetrics", h.get_hex_metrics),
   ("getHexMetrics", h.get_hex_metrics),
   ("/getHexMetrics", h.get_hex_metrics),
   ("GetNeighborHexes", h.get_neighbor_hexes),
   ("getNeighborHexes", h.get_neighbor_hexes),
   ("/getNeighborHexes", h.get_neighbor_hexes),
   ("GetNeighborSummary", h.get_neighbor_summary),
   ("getNeighborSummary", h.get_neighbor_summary),
   ("/getNeighborSummary", h.get_neighbor_summary),
   ("GetHexSpeciesContext", h.get_hex_species_context),
   ("getHexSpeciesContext", h.get_hex_species_context),
   ("/getHexSpeciesContext", h.get_hex_species_context),
   ("GetOSMContext", h.get_osm_context),
   ("getOSMContext", h.get_osm_context),
   ("/getOSMContext", h.get_osm_context),
   ("GetInfoAboutThreatenedSpecies", h.get_info_about_threatened_species),
   ("getInfoAboutThreatenedSpecies", h.get_info_about_threatened_species),
   ("/getInfoAboutThreatenedSpecies", h.get_info_about_threatened_species),
   ("GetSpeciesProfiles", h.get_species_profiles),
   ("getSpeciesProfiles", h.get_species_profiles),
   ("/getSpeciesProfiles", h.get_species_profiles)]

/-- The quick-action placeholder names the calling agent may send. -/
def QUICK_ACTION_NAMES : List String :=
  ["action_group_quick_action1", "action_group_quick_action", "quick_action"]

/-- Embeds `_infer_tool_from_params`. -/
def _infer_tool_from_params (params : List Param) (body : Option Props) : Option String :=
  let p := params_to_dict params body
  let h3_ids := pyOr (dictGet p "h3_ids") (dictGet p "h3Ids")
  let k_ring := pyOr (dictGet p "k_ring") (dictGet p "kRing")
  let species_ids := pyOr (dictGet p "species_ids") (dictGet p "speciesIds")
  let species_names := pyOr (dictGet p "species_names") (dictGet p "speciesNames")
  let species_ids_or_names :=
    pyOr (dictGet p "species_ids_or_names") (dictGet p "speciesIdsOrNames")
  let h3_id := pyOr (dictGet p "h3_id") (dictGet p "h3Id")
  let h3_res := pyOr (dictGet p "h3_res") (dictGet p "h3Res")
  if h3_ids.isNone = false then Option.some "GetNeighborSummary"
  else if k_ring.isNone = false then Option.some "GetNeighborHexes"
  else if pyTruthy species_ids || pyTruthy species_names then Option.some "GetSpeciesProfiles"
  else if pyTruthy species_ids_or_names then Option.some "GetInfoAboutThreatenedSpecies"
  else if pyTruthy h3_id && h3_res.isNone = false then Option.some "GetHexMetrics"
  else Option.none

/-- The Bedrock invocation envelope as the router reads it. Absent keys and
None values are conflated in the optional fields; `parameters` folds the
`event.get("parameters") or []` normalization into a plain list. -/
structure RouterEvent where
  apiPath : Option String
  httpMethod : Option String
  function : Option String
  actionGroup : Option String
  parameters : List Param
  requestBody : Option Props
  sessionAttributes : Option JVal
  promptSessionAttributes : Option JVal

/-- Python `s.strip` with a slash argument: drop leading and trailing
slash characters. -/
def stripSlash (s : String) : String :=
  String.mk (((s.toList.dropWhile (fun c => c = '/')).reverse.dropWhile
    (fun c => c = '/')).reverse)

/-- The resolved tool key: the slash-stripped apiPath when non-empty, else
the raw apiPath when truthy, else the function name (empty when absent). -/
def toolKeyOf (e : RouterEvent) : String :=
  let stripped := stripSlash (e.apiPath.getD "")
  if stripped ≠ "" then stripped
  else
    match e.apiPath with
    | Option.some s => if s ≠ "" then s else e.function.getD ""
    | Option.none => e.function.getD ""

/-- Truthiness of `event.get("function")`. -/
def functionTruthy (e : RouterEvent) : Bool :=
  match e.function with
  | Option.some s => s ≠ ""
  | Option.none => false

/-- The shape-A (OpenAPI) response envelope. -/
structure OpenApiResponse where
  actionGroup : String
  apiPath : String
  httpMethod : String
  httpStatusCode : ℤ
  body : JVal
  sessionAttributes : JVal
  promptSessionAttributes : JVal

/-- The shape-B (function-details) response envelope. -/
structure FunctionResponse where
  actionGroup : String
  function : String
  body : JVal
  responseState : Option String
  sessionAttributes : JVal
  promptSessionAttributes : JVal

/-- A router result in one of the two wire shapes. -/
inductive LambdaResult
  | openapi (r : OpenApiResponse)
  | fnr (r : FunctionResponse)

/-- Embeds `_build_openapi_response`. -/
def _build_openapi_response (e : RouterEvent) (body : JVal) (status : ℤ) : LambdaResult :=
  .openapi
    { actionGroup := e.actionGroup.getD "", apiPath := e.apiPath.getD "",
      httpMethod := e.httpMethod.getD "POST", httpStatusCode := status, body := body,
      sessionAttributes := e.sessionAttributes.getD (.jobj []),
      promptSessionAttributes := e.promptSessionAttributes.getD (.jobj []) }

/-- Embeds `_build_function_response`; `responseState` is attached only for
a non-SUCCESS state. -/
def _build_function_response (e : RouterEvent) (body : JVal) (state : String) : LambdaResult :=
  .fnr
    { actionGroup := e.actionGroup.getD "", function := e.function.getD "",
      body := body,
      responseState := if state ≠ "SUCCESS" then Option.some state else Option.none,
      sessionAttributes := e.sessionAttributes.getD (.jobj []),
      promptSessionAttributes := e.promptSessionAttributes.getD (.jobj []) }

/-- Tool resolution step: quick-action placeholder names go through
parameter-based inference, every other key stands. -/
def resolveTool (e : RouterEvent) : Option String :=
  let tool_key := toolKeyOf e
  if QUICK_ACTION_NAMES.contains tool_key then
    _infer_tool_from_params e.parameters e.requestBody
  else Option.some tool_key

/-- Handler lookup: the key itself, then the slash-prefixed key. -/
def lookupHandler (hs : Handlers) (tk : String) : Option HandlerFn :=
  match (TOOL_HANDLERS hs).lookup tk with
  | Option.some f => Option.some f
  | Option.none => (TOOL_HANDLERS hs).lookup ("/" ++ tk)

/-- Embeds `lambda_handler`: tool resolution, quick-action inference,
dispatch, and conversion of raised errors into the two wire shapes. -/
def lambda_handler (hs : Handlers) (e : RouterEvent) : LambdaResult :=
  let tool_key := toolKeyOf e
  if tool_key = "" then
    let err := JVal.jobj
      [("error", .jstr "Missing apiPath or function"), ("message", .jstr "Invalid invocation")]
    if e.function.isSome then _build_function_response e err "FAILURE"
    else _build_openapi_response e err 400
  else
    match resolveTool e with
    | Option.none =>
        let err := JVal.jobj
          [("error", .jstr "Unknown tool"), ("tool", .jstr tool_key),
           ("message", .jstr "Could not infer tool from parameters")]
        if e.function.isSome then _build_function_response e err "FAILURE"
        else _build_openapi_response e err 404
    | Option.some tk =>
        match lookupHandler hs tk with
        | Option.none =>
            let err := JVal.jobj [("error", .jstr "Unknown tool"), ("tool", .jstr tk)]
            if e.function.isSome then _build_function_response e err "FAILURE"
            else _build_openapi_response e err 404
        | Option.some fn =>
            match fn e.parameters e.requestBody with
            | .ok result =>
                if e.function.isSome then _build_function_response e result "SUCCESS"
                else _build_openapi_response e result 200
            | .error (.valueError m) =>
                let err := JVal.jobj
                  [("error", .jstr "ValidationError"), ("message", .jstr m)]
                if functionTruthy e then _build_function_response e err "REPROMPT"
                else _build_openapi_response e err 400
            | .error (.exn m) =>
                let err := JVal.jobj
                  [("error", .jstr "InternalError"), ("message", .jstr m)]
                if functionTruthy e then _build_function_response e err "FAILURE"
                else _build_openapi_response e err 500

/-- HTTP status of a result, for shape A. -/
def resultStatus : LambdaResult → Option ℤ
  | .openapi r => Option.some r.httpStatusCode
  | .fnr _ => Option.none

/-- Response state of a result, for shape B. -/
def resultState : LambdaResult → Option String
  | .openapi _ => Option.none
  | .fnr r => r.responseState

/-- The JSON body carried by either shape. -/
def resultBody : LambdaResult → JVal
  | .openapi r => r.body
  | .fnr r => r.body

/-- The `get_neighbor_summary` handler in the uniform shape the router
dispatches to, with its raised ValueErrors as exceptions. -/
def neighborSummaryFn (h3res : String → Option ℤ) (jsonLoads : String → Option PVal)
    (table : List MetricsRow) : HandlerFn := fun params body =>
  match get_neighbor_summary h3res jsonLoads table params body with
  | .ok r => .ok (summaryResultJson r)
  | .error m => .error (.valueError m)

/-- The three view modes of the map explorer session state. -/
inductive ViewMode
  | top_n
  | request_bounds
  | viewport_snapshot
deriving DecidableEq

/-- Captured viewport bounds (southwest and northeast corners). -/
structure MapBounds where
  swLat : ℚ
  swLng : ℚ
  neLat : ℚ
  neLng : ℚ
deriving DecidableEq

/-- The session-state fields of `streamlit/app.py main` that the sidebar
control block reads and writes. -/
structure ExplorerState where
  selected_cell : Option String
  prev_h3_res : Option ℤ
  prev_year : Option ℤ
  view_mode : ViewMode
  snapshot_bounds : Option MapBounds
deriving DecidableEq

/-- Embeds the sidebar-control block of `main`: a changed year clears the
selected cell, resets the view mode and drops the captured bounds; the
rendering resolution is tracked but never resets anything. -/
def applySidebarControls (s : ExplorerState) (selected_year : ℤ) (h3_res : ℤ) :
    ExplorerState :=
  let s1 :=
    if s.prev_year ≠ Option.some selected_year then
      { s with selected_cell := Option.none, view_mode := .top_n,
               snapshot_bounds := Option.none, prev_year := Option.some selected_year }
    else s
  { s1 with prev_h3_res := Option.some h3_res }

/-! Theorems settling the claims. -/

/-- C7: the JSON-safe conversion returns null for SQL NULL and for NaN
(never a NaN token: no JSON constructor for NaN exists), booleans, integers,
strings and finite floats verbatim, and the string form of any other value;
its two code variants agree, and either response envelope carries the
converted body unchanged. -/
theorem c7_json_safe_conversion :
    to_json_val .none = .jnull ∧
    to_json_val (.pyfloat .nan) = .jnull ∧
    osm_json_val (.pyfloat .nan) = .jnull ∧
    (∀ b, to_json_val (.pybool b) = .jbool b) ∧
    (∀ n, to_json_val (.pyint n) = .jint n) ∧
    (∀ s, to_json_val (.pystr s) = .jstr s) ∧
    (∀ q, to_json_val (.pyfloat (.finite q)) = .jnum q) ∧
    (∀ s, to_json_val (.other s) = .jstr s) ∧
    (∀ xs, to_json_val (.pylist xs) = .jstr (pyStr (.pylist xs))) ∧
    (∀ v, osm_json_val v = to_json_val v) ∧
    (∀ e body status, resultBody (_build_openapi_response e body status) = body) ∧
    (∀ e body state, resultBody (_build_function_response e body state) = body) := by
  refine ⟨rfl, rfl, rfl, fun b => rfl, fun n => rfl, fun s => rfl, fun q => rfl,
    fun s => by simp [to_json_val, pyStr], fun xs => rfl, fun v => ?_,
    fun e body status => rfl, fun e body state => rfl⟩
  cases v with
  | pyfloat f => cases f <;> rfl
  | _ => rfl

/-- C9: in the map explorer session state, a year change resets the view
mode to top-N and clears both the captured bounds and the selected cell,
while a resolution change (no year change) leaves the view mode and the
captured bounds unchanged. -/
theorem c9_view_state_machine (s : ExplorerState) (selected_year h3_res : ℤ) :
    (s.prev_year ≠ Option.some selected_year →
      applySidebarControls s selected_year h3_res =
        { selected_cell := Option.none, prev_h3_res := Option.some h3_res,
          prev_year := Option.some selected_year, view_mode := .top_n,
          snapshot_bounds := Option.none }) ∧
    (s.prev_year = Option.some selected_year →
      applySidebarControls s selected_year h3_res =
        { s with prev_h3_res := Option.some h3_res }) := by
  constructor
  · intro h
    simp [applySidebarControls, h]
  · intro h
    simp [applySidebarControls, h]

/-- Witness for C9 at a concrete state: a year change from 2020 to 2021
resets everything, and a resolution toggle alone preserves the snapshot. -/
theorem c9_view_state_machine_witness :
    applySidebarControls
      { selected_cell := Option.some "86392b417ffffff", prev_h3_res := Option.some 7,
        prev_year := Option.some 2020, view_mode := .viewport_snapshot,
        snapshot_bounds := Option.some { swLat := 0, swLng := 0, neLat := 1, neLng := 1 } }
      2021 8 =
      { selected_cell := Option.none, prev_h3_res := Option.some 8,
        prev_year := Option.some 2021, view_mode := .top_n,
        snapshot_bounds := Option.none } ∧
    applySidebarControls
      { selected_cell := Option.some "86392b417ffffff", prev_h3_res := Option.some 7,
        prev_year := Option.some 2020, view_mode := .viewport_snapshot,
        snapshot_bounds := Option.some { swLat := 0, swLng := 0, neLat := 1, neLng := 1 } }
      2020 8 =
      { selected_cell := Option.some "86392b417ffffff", prev_h3_res := Option.some 8,
        prev_year := Option.some 2020, view_mode := .viewport_snapshot,
        snapshot_bounds := Option.some { swLat := 0, swLng := 0, neLat := 1, neLng := 1 } } :=
  ⟨(c9_view_state_machine _ 2021 8).1 (by decide),
   (c9_view_state_machine _ 2020 8).2 rfl⟩

/-- Whether a validation result is a success. -/
def vOk {α : Type} : VRes α → Bool
  | .ok _ => true
  | .error _ => false

/-- The entries `validate_h3_id_list` keeps: stringified and trimmed, then
filtered to the non-blank entries that validate as cell ids. -/
def keptH3Ids (h3res : String → Option ℤ) (xs : List PVal) : List String :=
  (xs.map (fun h => pyStrip (pyStr h))).filter
    (fun s => s ≠ "" && vOk (validate_h3_id h3res (.pystr s)))

theorem h3ListFold_eq (h3res : String → Option ℤ) (xs : List PVal) (acc : List String) :
    List.foldl (h3ListStep h3res) acc xs = acc ++ keptH3Ids h3res xs := by
  induction xs generalizing acc with
  | nil => simp [keptH3Ids]
  | cons h t ih =>
      by_cases hs : pyStrip (pyStr h) = ""
      · simp [h3ListStep, hs, ih, keptH3Ids]
      · cases hv : validate_h3_id h3res (.pystr (pyStrip (pyStr h))) with
        | ok s => simp [h3ListStep, hs, hv, ih, keptH3Ids, vOk]
        | error m => simp [h3ListStep, hs, hv, ih, keptH3Ids, vOk]

/-- An everywhere-defined resolution oracle: models the external H3 library
on inputs it accepts. -/
def h3resAll : String → Option ℤ := fun _ => Option.some 9

/-- C3 as stated is false: on a list repeating one valid cell id, the
validator keeps both copies, so the returned list is not de-duplicated. -/
theorem c3_counterexample :
    validate_h3_id_list h3resAll
      (.pylist [.pystr "8928308280fffff", .pystr "8928308280fffff", .pystr "zz!!"]) =
      .ok ["8928308280fffff", "8928308280fffff"] ∧
    ¬ List.Nodup ["8928308280fffff", "8928308280fffff"] := by
  constructor
  · rfl
  · simp

/-- C3 amended: for every input list, the cell-id-list validator keeps the
valid entries in input order (duplicates retained, malformed entries
silently dropped, never raising on them) and raises only when the kept
entries exceed 100. -/
theorem c3_h3_id_list (h3res : String → Option ℤ) (xs : List PVal) :
    ((keptH3Ids h3res xs).length ≤ 100 →
      validate_h3_id_list h3res (.pylist xs) = .ok (keptH3Ids h3res xs)) ∧
    (100 < (keptH3Ids h3res xs).length →
      validate_h3_id_list h3res (.pylist xs) = .error "Maximum 100 H3 cells per request") ∧
    (∀ s ∈ keptH3Ids h3res xs, vOk (validate_h3_id h3res (.pystr s)) = true) := by
  refine ⟨?_, ?_, ?_⟩
  · intro hlen
    simp [validate_h3_id_list, h3ListFold_eq]
    omega
  · intro hlen
    simp [validate_h3_id_list, h3ListFold_eq]
    omega
  · intro s hs
    have := List.of_mem_filter hs
    simp at this
    exact this.2

/-- Witness for C3 at a concrete list: one valid id kept, one malformed
entry dropped. -/
theorem c3_h3_id_list_witness :
    keptH3Ids h3resAll [.pystr "8928308280fffff", .pystr "zz!!"] = ["8928308280fffff"] ∧
    validate_h3_id_list h3resAll (.pylist [.pystr "8928308280fffff", .pystr "zz!!"]) =
      .ok ["8928308280fffff"] := by
  have hk : keptH3Ids h3resAll [.pystr "8928308280fffff", .pystr "zz!!"] =
      ["8928308280fffff"] := by
    simp [keptH3Ids, pyStr, vOk, validate_h3_id, hexShape, isHexChar, h3resAll, pyStrip]
  refine ⟨hk, ?_⟩
  have := (c3_h3_id_list h3resAll [.pystr "8928308280fffff", .pystr "zz!!"]).1
  rw [hk] at this
  exact this (by decide)

/-- A metrics row for the cell at year 2001. -/
def rowA : MetricsRow :=
  { h3_index := "8928308280fffff", h3_resolution := 7, year := 2001,
    species_richness_cell := Option.some 10, n_threatened_species := Option.some 2,
    dqi := Option.some (.finite (1 / 2)), threat_score_weighted := Option.none }

/-- A metrics row for the same cell at year 2026. -/
def rowB : MetricsRow :=
  { h3_index := "8928308280fffff", h3_resolution := 7, year := 2026,
    species_richness_cell := Option.some 15, n_threatened_species := Option.some 1,
    dqi := Option.some (.finite (3 / 4)),
    threat_score_weighted := Option.some (.finite 2) }

unseal Rat.mul Rat.inv Rat.add Rat.sub in
/-- C6: the code contradicts the claim. The dedicated range validator
rejects 0 and 100, but `handler` never calls it (it is imported unused):
`_get_year_filter` silently drops the filter for 0 and derives a window for
100, and the whole invocation with `last_n_months = 0` succeeds over all
years instead of failing with a validation error. -/
theorem c6_lookback_divergence :
    validate_last_n_months (.pyint 0) = .error "last_n_months must be between 1 and 60" ∧
    validate_last_n_months (.pyint 100) = .error "last_n_months must be between 1 and 60" ∧
    _get_year_filter 2026 [("last_n_months", .pyint 0)] = (Option.none, Option.none) ∧
    _get_year_filter 2026 [("last_n_months", .pyint 100)] =
      (Option.some 2017, Option.some 2026) ∧
    _get_year_filter 2026 [("last_n_months", .pyint 24)] =
      (Option.some 2023, Option.some 2026) ∧
    _get_year_filter 2026 [("last_n_months", .pyint 60)] =
      (Option.some 2020, Option.some 2026) ∧
    get_hex_metrics h3resAll 2026 [rowA, rowB]
      [("h3_id", .pystr "8928308280fffff"), ("h3_res", .pyint 7),
       ("last_n_months", .pyint 0)] =
      .ok { h3_id := "8928308280fffff", h3_resolution := 7, metrics := [rowA, rowB],
            trend := Option.some { species_richness_change := 5, threatened_change := -1,
                                   dqi_change := 1 / 4 } } := by
  exact ⟨rfl, rfl, rfl, rfl, rfl, rfl, by decide⟩

/-- C4: for every metrics response, the rows are ordered by year; with
fewer than two rows the trend is null; with at least two rows the trend is
present and equals last row minus first row fieldwise on the converted
values, which on non-null columns is exactly last minus first, with the
data-quality delta rounded to 4 decimals. -/
theorem c4_trend_block (h3res : String → Option ℤ) (todayYear : ℤ)
    (table : List MetricsRow) (p : PDict) (res : HexMetricsResult)
    (h : get_hex_metrics h3res todayYear table p = .ok res) :
    List.Sorted yearLe res.metrics ∧
    (res.metrics.length < 2 → res.trend = Option.none) ∧
    (∀ first last, res.metrics.head? = Option.some first →
      res.metrics.getLast? = Option.some last → 2 ≤ res.metrics.length →
      res.trend = Option.some
        { species_richness_change :=
            intTerm last.species_richness_cell - intTerm first.species_richness_cell
          threatened_change :=
            intTerm last.n_threatened_species - intTerm first.n_threatened_species
          dqi_change := pyRound (dqiTerm last.dqi - dqiTerm first.dqi) 4 } ∧
      (∀ r1 r2 t1 t2 q1 q2,
        first.species_richness_cell = Option.some r1 →
        last.species_richness_cell = Option.some r2 →
        first.n_threatened_species = Option.some t1 →
        last.n_threatened_species = Option.some t2 →
        first.dqi = Option.some (.finite q1) →
        last.dqi = Option.some (.finite q2) →
        res.trend = Option.some
          { species_richness_change := r2 - r1, threatened_change := t2 - t1,
            dqi_change := pyRound (q2 - q1) 4 })) := by
  unfold get_hex_metrics at h
  cases hid : validate_h3_id h3res
      (pyOr (pyOr (dictGet p "h3_id") (dictGet p "h3Id")) (.pystr "")) with
  | error m => rw [hid] at h; cases h
  | ok c =>
      rw [hid] at h
      cases hres : validate_h3_resolution (pyOr (dictGet p "h3_res") (dictGet p "h3Res")) with
      | error m => rw [hres] at h; cases h
      | ok r =>
          rw [hres] at h
          cases h
          refine ⟨List.sorted_insertionSort yearLe _, ?_, ?_⟩
          · intro hlt
            dsimp only at hlt ⊢
            simp only [trendOf]
            rw [if_neg (by omega)]
          · intro first last hfirst hlast hlen
            dsimp only at hfirst hlast hlen ⊢
            have htr : trendOf (hexMetricsRows table c r
                (_get_year_filter todayYear p).1 (_get_year_filter todayYear p).2) =
                Option.some
                  { species_richness_change :=
                      intTerm last.species_richness_cell - intTerm first.species_richness_cell
                    threatened_change :=
                      intTerm last.n_threatened_species - intTerm first.n_threatened_species
                    dqi_change := pyRound (dqiTerm last.dqi - dqiTerm first.dqi) 4 } := by
              simp only [trendOf, hfirst, hlast, if_pos hlen]
            refine ⟨htr, ?_⟩
            intro r1 r2 t1 t2 q1 q2 e1 e2 e3 e4 e5 e6
            rw [htr]
            simp [intTerm, dqiTerm, e1, e2, e3, e4, e5, e6]

/-- The metrics result for the two-row table at default year filter. -/
def resC4 : HexMetricsResult :=
  { h3_id := "8928308280fffff", h3_resolution := 7, metrics := [rowA, rowB],
    trend := Option.some
      { species_richness_change := 5, threatened_change := -1, dqi_change := 1 / 4 } }

unseal Rat.mul Rat.inv Rat.add Rat.sub in
/-- Witness for C4 at a concrete two-year table: richness 10 to 15 and
threatened 2 to 1 give changes 5 and -1, the data-quality delta rounded. -/
theorem c4_trend_block_witness :
    ∃ res, get_hex_metrics h3resAll 2026 [rowA, rowB]
        [("h3_id", PVal.pystr "8928308280fffff"), ("h3_res", PVal.pyint 7)] =
        Except.ok res ∧
      res.trend = Option.some
        { species_richness_change := 15 - 10, threatened_change := 1 - 2,
          dqi_change := pyRound (3 / 4 - 1 / 2) 4 } := by
  have h : get_hex_metrics h3resAll 2026 [rowA, rowB]
      [("h3_id", PVal.pystr "8928308280fffff"), ("h3_res", PVal.pyint 7)] =
      Except.ok resC4 := by decide
  refine ⟨resC4, h, ?_⟩
  exact ((c4_trend_block h3resAll 2026 [rowA, rowB] _ resC4 h).2.2 rowA rowB (by decide)
    (by decide) (by decide)).2 10 15 2 1 (1 / 2) (3 / 4) rfl rfl rfl rfl rfl rfl

/-- C5: the neighbor-hexes handler, on validated inputs, returns a sorted
duplicate-free neighbor list excluding the center cell, silently replaces a
cell whose actual resolution differs by its parent at the requested
resolution, and derives the reference hash as a pure function of (cell,
resolution, ring size): identical inputs yield an identical hash. -/
theorem c5_neighbor_hexes (lib : H3Lib) (sha16 : String → String) (p : PDict)
    (c : String) (r k : ℤ)
    (hc : validate_h3_id lib.getResolution
      (pyOr (pyOr (dictGet p "h3_id") (dictGet p "h3Id")) (.pystr "")) = .ok c)
    (hr : validate_h3_resolution (pyOr (dictGet p "h3_res") (dictGet p "h3Res")) = .ok r)
    (hk : validate_k_ring (pyOr (dictGet p "k_ring") (dictGet p "kRing")) = .ok k) :
    ∃ res, get_neighbor_hexes lib sha16 p = .ok res ∧
      res.h3_id = derivedCell lib c r ∧
      List.Sorted (· ≤ ·) res.neighbor_h3_ids ∧
      res.neighbor_h3_ids.Nodup ∧
      res.h3_id ∉ res.neighbor_h3_ids ∧
      (∀ ra par, lib.getResolution c = Option.some ra → ra ≠ r →
        lib.cellToParent c r = Option.some par → res.h3_id = par) ∧
      res.neighbor_set_id = sha16 (neighborPayload (derivedCell lib c r) r k) ∧
      (∀ p2 : PDict,
        validate_h3_id lib.getResolution
          (pyOr (pyOr (dictGet p2 "h3_id") (dictGet p2 "h3Id")) (.pystr "")) = .ok c →
        validate_h3_resolution (pyOr (dictGet p2 "h3_res") (dictGet p2 "h3Res")) = .ok r →
        validate_k_ring (pyOr (dictGet p2 "k_ring") (dictGet p2 "kRing")) = .ok k →
        ∃ res2, get_neighbor_hexes lib sha16 p2 = .ok res2 ∧
          res2.neighbor_set_id = res.neighbor_set_id) := by
  unfold get_neighbor_hexes
  rw [hc, hr, hk]
  refine ⟨_, rfl, rfl, List.sorted_insertionSort _ _, ?_, ?_, ?_, rfl, ?_⟩
  · exact ((List.perm_insertionSort _ _).nodup_iff).mpr
      ((List.nodup_dedup _).filter _)
  · intro hmem
    simp only [neighborList, List.mem_insertionSort] at hmem
    have := List.of_mem_filter hmem
    simp at this
  · intro ra par hra hne hpar
    simp [derivedCell, hra, hne, hpar]
  · intro p2 hc2 hr2 hk2
    rw [hc2, hr2, hk2]
    exact ⟨_, rfl, rfl⟩

/-- An H3 library model where one cell sits at resolution 9 and all others
at resolution 7, with a fixed parent and a duplicated ring. -/
def lib0 : H3Lib :=
  { getResolution := fun s => if s = "aabbccdd" then Option.some 9 else Option.some 7
    cellToParent := fun _ _ => Option.some "aabb0000"
    gridDisk := fun c _ => [c, "ffffffff", "eeeeeeee", "ffffffff"] }

/-- The parameter dict of the C5 witness invocation. -/
def p5 : PDict :=
  [("h3_id", .pystr "aabbccdd"), ("h3_res", .pyint 7), ("k_ring", .pyint 2)]

/-- Witness for C5 at a concrete invocation whose cell resolution differs
from the requested one. -/
theorem c5_neighbor_hexes_witness :
    ∃ res, get_neighbor_hexes lib0 (fun s => s) p5 = .ok res ∧
      res.h3_id = derivedCell lib0 "aabbccdd" 7 ∧
      List.Sorted (· ≤ ·) res.neighbor_h3_ids ∧
      res.neighbor_h3_ids.Nodup ∧
      res.h3_id ∉ res.neighbor_h3_ids ∧
      (∀ ra par, lib0.getResolution "aabbccdd" = Option.some ra → ra ≠ 7 →
        lib0.cellToParent "aabbccdd" 7 = Option.some par → res.h3_id = par) ∧
      res.neighbor_set_id = (fun s => s) (neighborPayload (derivedCell lib0 "aabbccdd" 7) 7 2) ∧
      (∀ p2 : PDict,
        validate_h3_id lib0.getResolution
          (pyOr (pyOr (dictGet p2 "h3_id") (dictGet p2 "h3Id")) (.pystr "")) = .ok "aabbccdd" →
        validate_h3_resolution (pyOr (dictGet p2 "h3_res") (dictGet p2 "h3Res")) = .ok 7 →
        validate_k_ring (pyOr (dictGet p2 "k_ring") (dictGet p2 "kRing")) = .ok 2 →
        ∃ res2, get_neighbor_hexes lib0 (fun s => s) p2 = .ok res2 ∧
          res2.neighbor_set_id = res.neighbor_set_id) :=
  c5_neighbor_hexes lib0 (fun s => s) p5 "aabbccdd" 7 2 (by decide) (by decide) (by decide)

/-- C8: when the neighbor-summary invocation finds metrics rows, the
top-risky-neighbors field holds the complete filtered row set (a permutation
of the full query result, not a top-K slice), ordered by weighted threat
score descending with nulls last. -/
theorem c8_top_risky_neighbors (h3res : String → Option ℤ)
    (jsonLoads : String → Option PVal) (table : List MetricsRow)
    (params : List Param) (body : Option Props)
    (ids : List String) (r : ℤ) (y0 : Option ℤ)
    (hi : validate_h3_id_list h3res
      (pyOr (dictGet (parse_params_summary jsonLoads params body) "h3_ids")
            (dictGet (parse_params_summary jsonLoads params body) "h3Ids")) = .ok ids)
    (hr : validate_h3_resolution
      (pyOr (dictGet (parse_params_summary jsonLoads params body) "h3_res")
            (dictGet (parse_params_summary jsonLoads params body) "h3Res")) = .ok r)
    (hy : validate_year
      (dictGet (parse_params_summary jsonLoads params body) "year") = .ok y0)
    (hne : ids ≠ [])
    (hrows : summaryRows table ids r (summaryYear table ids r y0) ≠ []) :
    ∃ cells, get_neighbor_summary h3res jsonLoads table params body =
        .ok { h3_ids := ids, h3_resolution := r,
              year := Option.some (summaryYear table ids r y0),
              summary := Option.some (summaryStatsOf cells),
              top_risky_neighbors := Option.some cells, message := Option.none } ∧
      cells.Perm (summaryRows table ids r (summaryYear table ids r y0)) ∧
      List.Sorted threatOrder cells := by
  have hperm := List.perm_insertionSort threatOrder
    (summaryRows table ids r (summaryYear table ids r y0))
  have hcells : List.insertionSort threatOrder
      (summaryRows table ids r (summaryYear table ids r y0)) ≠ [] := by
    intro h0
    rw [h0] at hperm
    exact hrows hperm.nil_eq.symm
  unfold get_neighbor_summary
  rw [hi, hr, hy]
  dsimp only
  rw [if_neg hne, if_neg hcells]
  exact ⟨_, rfl, hperm, List.sorted_insertionSort _ _⟩

/-- A json decoder stub that always reports a decode error. -/
def jsonLoads0 : String → Option PVal := fun _ => Option.none

/-- The parameter list of the C8 witness invocation. -/
def params8 : List Param :=
  [{ name := "h3_ids", value := Option.some (.pylist [.pystr "8928308280fffff"]) },
   { name := "h3_res", value := Option.some (.pyint 7) }]

unseal Rat.mul Rat.inv Rat.add Rat.sub in
/-- Witness for C8 at a concrete table holding two years of one cell: the
implicit year resolves to the latest year and the single matching row is
returned in full. -/
theorem c8_top_risky_neighbors_witness :
    ∃ cells, get_neighbor_summary h3resAll jsonLoads0 [rowA, rowB] params8 Option.none =
        .ok { h3_ids := ["8928308280fffff"], h3_resolution := 7,
              year := Option.some (summaryYear [rowA, rowB] ["8928308280fffff"] 7 Option.none),
              summary := Option.some (summaryStatsOf cells),
              top_risky_neighbors := Option.some cells, message := Option.none } ∧
      cells.Perm (summaryRows [rowA, rowB] ["8928308280fffff"] 7
        (summaryYear [rowA, rowB] ["8928308280fffff"] 7 Option.none)) ∧
      List.Sorted threatOrder cells :=
  c8_top_risky_neighbors h3resAll jsonLoads0 [rowA, rowB] params8 Option.none
    ["8928308280fffff"] 7 Option.none (by decide) (by decide) (by decide)
    (by decide) (by decide)

/-- C10: when the neighbor-summary tool receives no valid cell ids (all
dropped or none given), the handler returns a success-shaped body with an
empty id list, a null summary and the no-valid-ids message, and the router
wraps it as HTTP 200 (shape A) with no responseState in either shape. -/
theorem c10_empty_ids_success (h3res : String → Option ℤ)
    (jsonLoads : String → Option PVal) (table : List MetricsRow)
    (hs : Handlers) (e : RouterEvent) (r : ℤ) (y0 : Option ℤ)
    (hfn : hs.get_neighbor_summary = neighborSummaryFn h3res jsonLoads table)
    (hkey : toolKeyOf e = "getNeighborSummary")
    (hi : validate_h3_id_list h3res
      (pyOr (dictGet (parse_params_summary jsonLoads e.parameters e.requestBody) "h3_ids")
            (dictGet (parse_params_summary jsonLoads e.parameters e.requestBody) "h3Ids")) =
      .ok [])
    (hr : validate_h3_resolution
      (pyOr (dictGet (parse_params_summary jsonLoads e.parameters e.requestBody) "h3_res")
            (dictGet (parse_params_summary jsonLoads e.parameters e.requestBody) "h3Res")) =
      .ok r)
    (hy : validate_year
      (dictGet (parse_params_summary jsonLoads e.parameters e.requestBody) "year") = .ok y0) :
    get_neighbor_summary h3res jsonLoads table e.parameters e.requestBody =
      .ok { h3_ids := [], h3_resolution := r, year := Option.none, summary := Option.none,
            top_risky_neighbors := Option.none,
            message := Option.some "No valid H3 IDs provided" } ∧
    resultBody (lambda_handler hs e) = JVal.jobj
      [("h3_ids", .jarr []), ("h3_resolution", .jint r), ("summary", .jnull),
       ("message", .jstr "No valid H3 IDs provided")] ∧
    resultStatus (lambda_handler hs e) =
      (if e.function.isSome then Option.none else Option.some 200) ∧
    resultState (lambda_handler hs e) = Option.none := by
  have hhandler : get_neighbor_summary h3res jsonLoads table e.parameters e.requestBody =
      .ok { h3_ids := [], h3_resolution := r, year := Option.none, summary := Option.none,
            top_risky_neighbors := Option.none,
            message := Option.some "No valid H3 IDs provided" } := by
    unfold get_neighbor_summary
    rw [hi, hr, hy]
    rfl
  have hlook : lookupHandler hs "getNeighborSummary" =
      Option.some hs.get_neighbor_summary := rfl
  have hroute : lambda_handler hs e =
      (if e.function.isSome then
        _build_function_response e (JVal.jobj
          [("h3_ids", .jarr []), ("h3_resolution", .jint r), ("summary", .jnull),
           ("message", .jstr "No valid H3 IDs provided")]) "SUCCESS"
      else
        _build_openapi_response e (JVal.jobj
          [("h3_ids", .jarr []), ("h3_resolution", .jint r), ("summary", .jnull),
           ("message", .jstr "No valid H3 IDs provided")]) 200) := by
    have hq : QUICK_ACTION_NAMES.contains "getNeighborSummary" = false := by decide
    simp only [lambda_handler, resolveTool, hkey, hq, Bool.false_eq_true, if_false,
      hlook, hfn, neighborSummaryFn, hhandler, summaryResultJson]
    rfl
  refine ⟨hhandler, ?_, ?_, ?_⟩ <;> rw [hroute] <;> cases hf : e.function.isSome <;>
    simp [resultBody, resultStatus, resultState, _build_function_response,
      _build_openapi_response]

/-- A tool handler stub that returns an empty JSON object. -/
def trivialFn : HandlerFn := fun _ _ => .ok (.jobj [])

/-- A handler table whose neighbor-summary slot is the embedded handler
over an empty table; all other slots are stubs. -/
def hs0 : Handlers :=
  { get_hex_metrics := trivialFn, get_neighbor_hexes := trivialFn,
    get_neighbor_summary := neighborSummaryFn h3resAll jsonLoads0 [],
    get_hex_species_context := trivialFn, get_osm_context := trivialFn,
    get_info_about_threatened_species := trivialFn, get_species_profiles := trivialFn }

/-- A shape-A invocation of the neighbor-summary tool whose only cell id is
malformed and hence dropped. -/
def e10 : RouterEvent :=
  { apiPath := Option.some "/getNeighborSummary", httpMethod := Option.none,
    function := Option.none, actionGroup := Option.none,
    parameters := [{ name := "h3_ids", value := Option.some (.pylist [.pystr "xx"]) }],
    requestBody := Option.none, sessionAttributes := Option.none,
    promptSessionAttributes := Option.none }

/-- Witness for C10: the concrete invocation with every cell id dropped is
wrapped as HTTP 200 with no responseState and the no-valid-ids body. -/
theorem c10_empty_ids_success_witness :
    get_neighbor_summary h3resAll jsonLoads0 [] e10.parameters e10.requestBody =
      .ok { h3_ids := [], h3_resolution := 7, year := Option.none, summary := Option.none,
            top_risky_neighbors := Option.none,
            message := Option.some "No valid H3 IDs provided" } ∧
    resultBody (lambda_handler hs0 e10) = JVal.jobj
      [("h3_ids", .jarr []), ("h3_resolution", .jint 7), ("summary", .jnull),
       ("message", .jstr "No valid H3 IDs provided")] ∧
    resultStatus (lambda_handler hs0 e10) =
      (if e10.function.isSome then Option.none else Option.some 200) ∧
    resultState (lambda_handler hs0 e10) = Option.none :=
  c10_empty_ids_success h3resAll jsonLoads0 [] hs0 e10 7 Option.none rfl (by decide)
    (by decide) (by decide) (by decide)

/-- C2: quick-action inference resolves the tool from parameter aliases in
exactly the stated precedence order, and when no rule matches the router
reports an unresolvable-tool error, 404 in shape A and FAILURE in shape B. -/
theorem c2_quick_action_inference (params : List Param) (body : Option Props) :
    ((pyOr (dictGet (params_to_dict params body) "h3_ids")
           (dictGet (params_to_dict params body) "h3Ids")).isNone = false →
      _infer_tool_from_params params body = Option.some "GetNeighborSummary") ∧
    ((pyOr (dictGet (params_to_dict params body) "h3_ids")
           (dictGet (params_to_dict params body) "h3Ids")).isNone = true →
      (pyOr (dictGet (params_to_dict params body) "k_ring")
            (dictGet (params_to_dict params body) "kRing")).isNone = false →
      _infer_tool_from_params params body = Option.some "GetNeighborHexes") ∧
    ((pyOr (dictGet (params_to_dict params body) "h3_ids")
           (dictGet (params_to_dict params body) "h3Ids")).isNone = true →
      (pyOr (dictGet (params_to_dict params body) "k_ring")
            (dictGet (params_to_dict params body) "kRing")).isNone = true →
      (pyTruthy (pyOr (dictGet (params_to_dict params body) "species_ids")
                      (dictGet (params_to_dict params body) "speciesIds")) = true ∨
       pyTruthy (pyOr (dictGet (params_to_dict params body) "species_names")
                      (dictGet (params_to_dict params body) "speciesNames")) = true) →
      _infer_tool_from_params params body = Option.some "GetSpeciesProfiles") ∧
    ((pyOr (dictGet (params_to_dict params body) "h3_ids")
           (dictGet (params_to_dict params body) "h3Ids")).isNone = true →
      (pyOr (dictGet (params_to_dict params body) "k_ring")
            (dictGet (params_to_dict params body) "kRing")).isNone = true →
      pyTruthy (pyOr (dictGet (params_to_dict params body) "species_ids")
                     (dictGet (params_to_dict params body) "speciesIds")) = false →
      pyTruthy (pyOr (dictGet (params_to_dict params body) "species_names")
                     (dictGet (params_to_dict params body) "speciesNames")) = false →
      pyTruthy (pyOr (dictGet (params_to_dict params body) "species_ids_or_names")
                     (dictGet (params_to_dict params body) "speciesIdsOrNames")) = true →
      _infer_tool_from_params params body = Option.some "GetInfoAboutThreatenedSpecies") ∧
    ((pyOr (dictGet (params_to_dict params body) "h3_ids")
           (dictGet (params_to_dict params body) "h3Ids")).isNone = true →
      (pyOr (dictGet (params_to_dict params body) "k_ring")
            (dictGet (params_to_dict params body) "kRing")).isNone = true →
      pyTruthy (pyOr (dictGet (params_to_dict params body) "species_ids")
                     (dictGet (params_to_dict params body) "speciesIds")) = false →
      pyTruthy (pyOr (dictGet (params_to_dict params body) "species_names")
                     (dictGet (params_to_dict params body) "speciesNames")) = false →
      pyTruthy (pyOr (dictGet (params_to_dict params body) "species_ids_or_names")
                     (dictGet (params_to_dict params body) "speciesIdsOrNames")) = false →
      pyTruthy (pyOr (dictGet (params_to_dict params body) "h3_id")
                     (dictGet (params_to_dict params body) "h3Id")) = true →
      (pyOr (dictGet (params_to_dict params body) "h3_res")
            (dictGet (params_to_dict params body) "h3Res")).isNone = false →
      _infer_tool_from_params params body = Option.some "GetHexMetrics") ∧
    ((pyOr (dictGet (params_to_dict params body) "h3_ids")
           (dictGet (params_to_dict params body) "h3Ids")).isNone = true →
      (pyOr (dictGet (params_to_dict params body) "k_ring")
            (dictGet (params_to_dict params body) "kRing")).isNone = true →
      pyTruthy (pyOr (dictGet (params_to_dict params body) "species_ids")
                     (dictGet (params_to_dict params body) "speciesIds")) = false →
      pyTruthy (pyOr (dictGet (params_to_dict params body) "species_names")
                     (dictGet (params_to_dict params body) "speciesNames")) = false →
      pyTruthy (pyOr (dictGet (params_to_dict params body) "species_ids_or_names")
                     (dictGet (params_to_dict params body) "speciesIdsOrNames")) = false →
      (pyTruthy (pyOr (dictGet (params_to_dict params body) "h3_id")
                      (dictGet (params_to_dict params body) "h3Id")) = false ∨
       (pyOr (dictGet (params_to_dict params body) "h3_res")
             (dictGet (params_to_dict params body) "h3Res")).isNone = true) →
      _infer_tool_from_params params body = Option.none) ∧
    (∀ (hs : Handlers) (e : RouterEvent),
      QUICK_ACTION_NAMES.contains (toolKeyOf e) = true →
      _infer_tool_from_params e.parameters e.requestBody = Option.none →
      resultStatus (lambda_handler hs e) =
        (if e.function.isSome then Option.none else Option.some 404) ∧
      resultState (lambda_handler hs e) =
        (if e.function.isSome then Option.some "FAILURE" else Option.none) ∧
      jGet (resultBody (lambda_handler hs e)) "error" =
        Option.some (.jstr "Unknown tool") ∧
      jGet (resultBody (lambda_handler hs e)) "message" =
        Option.some (.jstr "Could not infer tool from parameters")) := by
  refine ⟨?_, ?_, ?_, ?_, ?_, ?_, ?_⟩
  · intro h1
    simp [_infer_tool_from_params, h1]
  · intro h1 h2
    simp [_infer_tool_from_params, h1, h2]
  · intro h1 h2 h3
    rcases h3 with h3 | h3 <;> simp [_infer_tool_from_params, h1, h2, h3]
  · intro h1 h2 h3 h4 h5
    simp [_infer_tool_from_params, h1, h2, h3, h4, h5]
  · intro h1 h2 h3 h4 h5 h6 h7
    simp [_infer_tool_from_params, h1, h2, h3, h4, h5, h6, h7]
  · intro h1 h2 h3 h4 h5 h6
    rcases h6 with h6 | h6 <;> simp [_infer_tool_from_params, h1, h2, h3, h4, h5, h6]
  · intro hs e hquick hnone
    have hne : toolKeyOf e ≠ "" := by
      intro h0
      rw [h0] at hquick
      exact absurd hquick (by decide)
    have hroute : lambda_handler hs e =
        (if e.function.isSome then
          _build_function_response e (JVal.jobj
            [("error", .jstr "Unknown tool"), ("tool", .jstr (toolKeyOf e)),
             ("message", .jstr "Could not infer tool from parameters")]) "FAILURE"
        else
          _build_openapi_response e (JVal.jobj
            [("error", .jstr "Unknown tool"), ("tool", .jstr (toolKeyOf e)),
             ("message", .jstr "Could not infer tool from parameters")]) 404) := by
      simp only [lambda_handler, resolveTool, hquick, if_true, hnone, if_neg hne]
    rw [hroute]
    cases hf : e.function.isSome <;>
      simp [resultStatus, resultState, resultBody, jGet,
        _build_function_response, _build_openapi_response] <;> rfl

/-- The quick-action parameter list of the C2 witness: only a cell id list
is supplied. -/
def params2 : List Param :=
  [{ name := "h3_ids", value := Option.some (.pylist [.pystr "8928308280fffff"]) }]

/-- A shape-B quick-action invocation with no parameters at all. -/
def e2 : RouterEvent :=
  { apiPath := Option.none, httpMethod := Option.none,
    function := Option.some "quick_action", actionGroup := Option.none,
    parameters := [], requestBody := Option.none, sessionAttributes := Option.none,
    promptSessionAttributes := Option.none }

/-- Witness for C2: a lone cell id list resolves to the neighbor-summary
tool, and a quick-action invocation with no matching rule is wrapped as a
FAILURE unresolvable-tool error. -/
theorem c2_quick_action_inference_witness :
    _infer_tool_from_params params2 Option.none = Option.some "GetNeighborSummary" ∧
    (resultStatus (lambda_handler hs0 e2) =
        (if e2.function.isSome then Option.none else Option.some 404) ∧
      resultState (lambda_handler hs0 e2) =
        (if e2.function.isSome then Option.some "FAILURE" else Option.none) ∧
      jGet (resultBody (lambda_handler hs0 e2)) "error" =
        Option.some (.jstr "Unknown tool") ∧
      jGet (resultBody (lambda_handler hs0 e2)) "message" =
        Option.some (.jstr "Could not infer tool from parameters")) :=
  ⟨(c2_quick_action_inference params2 Option.none).1 (by decide),
   (c2_quick_action_inference [] Option.none).2.2.2.2.2.2 hs0 e2 (by decide) (by decide)⟩

/-- C1 amended: for every invocation that names a tool identifier, a
successful handler result is wrapped with HTTP 200 (shape A) or no
responseState (shape B) with the body verbatim; a validation failure yields
400 or REPROMPT and an internal error 500 or FAILURE, each with a JSON body
holding an error kind and a message string; a quick-action invocation whose
parameters match no inference rule yields 404 or FAILURE with an error kind
and a message; an unknown tool name yields 404 or FAILURE with a body
holding the error kind and the offending tool name but no message string. -/
theorem c1_router_outcome_mapping (hs : Handlers) (e : RouterEvent)
    (hkey : toolKeyOf e ≠ "") :
    (∀ tk fn b, resolveTool e = Option.some tk → lookupHandler hs tk = Option.some fn →
      fn e.parameters e.requestBody = .ok b →
      resultBody (lambda_handler hs e) = b ∧
      resultStatus (lambda_handler hs e) =
        (if e.function.isSome then Option.none else Option.some 200) ∧
      resultState (lambda_handler hs e) = Option.none) ∧
    (∀ tk fn m, resolveTool e = Option.some tk → lookupHandler hs tk = Option.some fn →
      fn e.parameters e.requestBody = .error (.valueError m) →
      resultStatus (lambda_handler hs e) =
        (if functionTruthy e then Option.none else Option.some 400) ∧
      resultState (lambda_handler hs e) =
        (if functionTruthy e then Option.some "REPROMPT" else Option.none) ∧
      jGet (resultBody (lambda_handler hs e)) "error" =
        Option.some (.jstr "ValidationError") ∧
      jGet (resultBody (lambda_handler hs e)) "message" = Option.some (.jstr m)) ∧
    (∀ tk fn m, resolveTool e = Option.some tk → lookupHandler hs tk = Option.some fn →
      fn e.parameters e.requestBody = .error (.exn m) →
      resultStatus (lambda_handler hs e) =
        (if functionTruthy e then Option.none else Option.some 500) ∧
      resultState (lambda_handler hs e) =
        (if functionTruthy e then Option.some "FAILURE" else Option.none) ∧
      jGet (resultBody (lambda_handler hs e)) "error" =
        Option.some (.jstr "InternalError") ∧
      jGet (resultBody (lambda_handler hs e)) "message" = Option.some (.jstr m)) ∧
    (resolveTool e = Option.none →
      resultStatus (lambda_handler hs e) =
        (if e.function.isSome then Option.none else Option.some 404) ∧
      resultState (lambda_handler hs e) =
        (if e.function.isSome then Option.some "FAILURE" else Option.none) ∧
      jGet (resultBody (lambda_handler hs e)) "error" =
        Option.some (.jstr "Unknown tool") ∧
      jGet (resultBody (lambda_handler hs e)) "message" =
        Option.some (.jstr "Could not infer tool from parameters")) ∧
    (∀ tk, resolveTool e = Option.some tk → lookupHandler hs tk = Option.none →
      resultStatus (lambda_handler hs e) =
        (if e.function.isSome then Option.none else Option.some 404) ∧
      resultState (lambda_handler hs e) =
        (if e.function.isSome then Option.some "FAILURE" else Option.none) ∧
      jGet (resultBody (lambda_handler hs e)) "error" =
        Option.some (.jstr "Unknown tool") ∧
      jGet (resultBody (lambda_handler hs e)) "tool" = Option.some (.jstr tk) ∧
      jGet (resultBody (lambda_handler hs e)) "message" = Option.none) := by
  refine ⟨?_, ?_, ?_, ?_, ?_⟩
  · intro tk fn b h1 h2 h3
    have hroute : lambda_handler hs e =
        (if e.function.isSome then _build_function_response e b "SUCCESS"
         else _build_openapi_response e b 200) := by
      simp only [lambda_handler, if_neg hkey, h1, h2, h3]
    rw [hroute]
    cases hf : e.function.isSome <;>
      simp [resultBody, resultStatus, resultState, _build_function_response,
        _build_openapi_response] <;> rfl
  · intro tk fn m h1 h2 h3
    have hroute : lambda_handler hs e =
        (if functionTruthy e then
          _build_function_response e (JVal.jobj
            [("error", .jstr "ValidationError"), ("message", .jstr m)]) "REPROMPT"
         else
          _build_openapi_response e (JVal.jobj
            [("error", .jstr "ValidationError"), ("message", .jstr m)]) 400) := by
      simp only [lambda_handler, if_neg hkey, h1, h2, h3, functionTruthy]
    rw [hroute]
    cases hf : functionTruthy e <;>
      simp [resultBody, resultStatus, resultState, _build_function_response,
        _build_openapi_response, jGet] <;> rfl
  · intro tk fn m h1 h2 h3
    have hroute : lambda_handler hs e =
        (if functionTruthy e then
          _build_function_response e (JVal.jobj
            [("error", .jstr "InternalError"), ("message", .jstr m)]) "FAILURE"
         else
          _build_openapi_response e (JVal.jobj
            [("error", .jstr "InternalError"), ("message", .jstr m)]) 500) := by
      simp only [lambda_handler, if_neg hkey, h1, h2, h3, functionTruthy]
    rw [hroute]
    cases hf : functionTruthy e <;>
      simp [resultBody, resultStatus, resultState, _build_function_response,
        _build_openapi_response, jGet] <;> rfl
  · intro h1
    have hroute : lambda_handler hs e =
        (if e.function.isSome then
          _build_function_response e (JVal.jobj
            [("error", .jstr "Unknown tool"), ("tool", .jstr (toolKeyOf e)),
             ("message", .jstr "Could not infer tool from parameters")]) "FAILURE"
         else
          _build_openapi_response e (JVal.jobj
            [("error", .jstr "Unknown tool"), ("tool", .jstr (toolKeyOf e)),
             ("message", .jstr "Could not infer tool from parameters")]) 404) := by
      simp only [lambda_handler, if_neg hkey, h1]
    rw [hroute]
    cases hf : e.function.isSome <;>
      simp [resultBody, resultStatus, resultState, _build_function_response,
        _build_openapi_response, jGet] <;> rfl
  · intro tk h1 h2
    have hroute : lambda_handler hs e =
        (if e.function.isSome then
          _build_function_response e (JVal.jobj
            [("error", .jstr "Unknown tool"), ("tool", .jstr tk)]) "FAILURE"
         else
          _build_openapi_response e (JVal.jobj
            [("error", .jstr "Unknown tool"), ("tool", .jstr tk)]) 404) := by
      simp only [lambda_handler, if_neg hkey, h1, h2]
    rw [hroute]
    cases hf : e.function.isSome <;>
      simp [resultBody, resultStatus, resultState, _build_function_response,
        _build_openapi_response, jGet] <;> rfl

/-- A shape-A invocation naming a tool that no table entry resolves. -/
def e1bad : RouterEvent :=
  { apiPath := Option.some "/noSuchTool", httpMethod := Option.none,
    function := Option.none, actionGroup := Option.none, parameters := [],
    requestBody := Option.none, sessionAttributes := Option.none,
    promptSessionAttributes := Option.none }

/-- C1 as stated is false: the unresolvable-tool response is 404 as claimed,
but its serialized body carries no message string at all. -/
theorem c1_counterexample :
    resultStatus (lambda_handler hs0 e1bad) = Option.some 404 ∧
    jGet (resultBody (lambda_handler hs0 e1bad)) "error" =
      Option.some (.jstr "Unknown tool") ∧
    jGet (resultBody (lambda_handler hs0 e1bad)) "message" = Option.none :=
  ⟨rfl, rfl, rfl⟩

/-- Witness for C1 at the concrete successful invocation of the
neighbor-summary tool. -/
theorem c1_router_outcome_mapping_witness :
    resultBody (lambda_handler hs0 e10) = JVal.jobj
      [("h3_ids", .jarr []), ("h3_resolution", .jint 7), ("summary", .jnull),
       ("message", .jstr "No valid H3 IDs provided")] ∧
    resultStatus (lambda_handler hs0 e10) =
      (if e10.function.isSome then Option.none else Option.some 200) ∧
    resultState (lambda_handler hs0 e10) = Option.none :=
  (c1_router_outcome_mapping hs0 e10 (by decide)).1 "getNeighborSummary"
    (neighborSummaryFn h3resAll jsonLoads0 [])
    (JVal.jobj
      [("h3_ids", .jarr []), ("h3_resolution", .jint 7), ("summary", .jnull),
       ("message", .jstr "No valid H3 IDs provided")])
    rfl rfl rfl

end BioAgent
